import Mathlib

/-!
Verification of the SmartMeet custom agent
(`src/vertex-ai-config/custom_agent/agent.py`).

The Python module is shallowly embedded below.  Python values that arise
from `json.loads`, that are posted as JSON bodies, or that populate the
response envelope are modelled by the inductive type `Json`.  Numbers are
modelled as integers; floating point is outside the model (the parser
rejects a float literal where Python would accept it, which no claim
depends on).  The network is an oracle `Net` mapping each outbound call
(URL, JSON payload and headers) to a response outcome; within a single
`query` invocation no two identical calls ever occur, so a deterministic
oracle is faithful.  Functions that can raise a Python exception return
`Except String`; functions that perform I/O additionally return the list
of outbound calls they attempted, in order.
-/

namespace SMA

mutual
/-- Python/JSON values.  `obj` keeps fields in insertion order, as a
Python `dict` does; the JSON parser below collapses duplicate keys the
way `json.loads` does, so objects it produces have distinct keys. -/
inductive Json where
  | null
  | bool (b : Bool)
  | num (n : Int)
  | str (s : String)
  | arr (xs : JsonList)
  | obj (fs : JsonFields)
  deriving DecidableEq
inductive JsonList where
  | nil
  | cons (hd : Json) (tl : JsonList)
  deriving DecidableEq
inductive JsonFields where
  | nil
  | cons (key : String) (val : Json) (tl : JsonFields)
  deriving DecidableEq
end

def JsonList.ofList : List Json → JsonList
  | [] => .nil
  | x :: xs => .cons x (JsonList.ofList xs)

def JsonFields.ofList : List (String × Json) → JsonFields
  | [] => .nil
  | (k, v) :: kvs => .cons k v (JsonFields.ofList kvs)

def JsonList.length : JsonList → Nat
  | .nil => 0
  | .cons _ tl => tl.length + 1

def JsonList.head? : JsonList → Option Json
  | .nil => none
  | .cons hd _ => some hd

/-- Python `dict.get`: first (and, for parser-produced objects, only)
occurrence of the key. -/
def JsonFields.get? : JsonFields → String → Option Json
  | .nil, _ => none
  | .cons k v fs, key => if k = key then some v else fs.get? key

/-- Python `dict.get(key, default)`. -/
def JsonFields.getD (fs : JsonFields) (key : String) (d : Json) : Json :=
  match fs.get? key with
  | some v => v
  | none => d

def JsonFields.keys : JsonFields → List String
  | .nil => []
  | .cons k _ fs => k :: fs.keys

/-- Python `dict` insertion: overwrite in place if the key exists,
append otherwise.  Used by the JSON parser for duplicate object keys. -/
def JsonFields.setKey : JsonFields → String → Json → JsonFields
  | .nil, k, v => .cons k v .nil
  | .cons k0 v0 fs, k, v =>
    if k0 = k then .cons k0 v fs else .cons k0 v0 (fs.setKey k v)

/-- Python truthiness `bool(x)` on parsed-JSON values. -/
def pyTruthy : Json → Bool
  | .null => false
  | .bool b => b
  | .num n => n != 0
  | .str s => s != ""
  | .arr .nil => false
  | .arr (.cons _ _) => true
  | .obj .nil => false
  | .obj (.cons _ _ _) => true

def Json.isObj : Json → Bool
  | .obj _ => true
  | _ => false

/-! ## `json.dumps(obj, ensure_ascii=False)` with the default separators -/

def hexDigit (n : Nat) : Char :=
  if n < 10 then Char.ofNat (48 + n) else Char.ofNat (87 + n)

/-- Escaping of one character inside a JSON string, as `json.dumps` does
with `ensure_ascii=False` (non-ASCII characters stay raw). -/
def escapeChar (c : Char) : List Char :=
  if c = '"' then ['\\', '"']
  else if c = '\\' then ['\\', '\\']
  else if c = '\n' then ['\\', 'n']
  else if c = '\t' then ['\\', 't']
  else if c = '\r' then ['\\', 'r']
  else if c = Char.ofNat 8 then ['\\', 'b']
  else if c = Char.ofNat 12 then ['\\', 'f']
  else if c.toNat < 32 then
    ['\\', 'u', '0', '0', hexDigit (c.toNat / 16), hexDigit (c.toNat % 16)]
  else [c]

def escapeStr (s : String) : String :=
  String.mk (s.data.map escapeChar).flatten

mutual
/-- `json.dumps(·, ensure_ascii=False)`: serialization with the default
separators `", "` and `": "`. -/
def dumps : Json → String
  | .null => "null"
  | .bool b => if b then "true" else "false"
  | .num n => toString n
  | .str s => "\"" ++ escapeStr s ++ "\""
  | .arr .nil => "[]"
  | .arr (.cons x xs) => "[" ++ dumps x ++ dumpsListTail xs ++ "]"
  | .obj .nil => "\x7b\x7d"
  | .obj (.cons k v fs) =>
    "\x7b\"" ++ escapeStr k ++ "\": " ++ dumps v ++ dumpsFieldsTail fs ++ "\x7d"
def dumpsListTail : JsonList → String
  | .nil => ""
  | .cons x xs => ", " ++ dumps x ++ dumpsListTail xs
def dumpsFieldsTail : JsonFields → String
  | .nil => ""
  | .cons k v fs => ", \"" ++ escapeStr k ++ "\": " ++ dumps v ++ dumpsFieldsTail fs
end

/-- Python `str()` on parsed-JSON values (`repr`-style formatting with
single quotes, `True`/`False`/`None`).  Only feeds human-readable error
messages; no claim depends on its exact output, and string escaping
inside it is abridged. -/
def reprQuote : String := String.mk [Char.ofNat 39]

mutual
def pyRepr : Json → String
  | .null => "None"
  | .bool b => if b then "True" else "False"
  | .num n => toString n
  | .str s => reprQuote ++ s ++ reprQuote
  | .arr .nil => "[]"
  | .arr (.cons x xs) => "[" ++ pyRepr x ++ pyReprListTail xs ++ "]"
  | .obj .nil => "\x7b\x7d"
  | .obj (.cons k v fs) =>
    "\x7b" ++ reprQuote ++ k ++ reprQuote ++ ": " ++ pyRepr v ++ pyReprFieldsTail fs ++ "\x7d"
def pyReprListTail : JsonList → String
  | .nil => ""
  | .cons x xs => ", " ++ pyRepr x ++ pyReprListTail xs
def pyReprFieldsTail : JsonFields → String
  | .nil => ""
  | .cons k v fs => ", " ++ reprQuote ++ k ++ reprQuote ++ ": " ++ pyRepr v ++ pyReprFieldsTail fs
end

/-! ## `json.loads`: a recursive-descent parser over the characters -/

def isWsChar (c : Char) : Bool :=
  c == ' ' || c == '\t' || c == '\n' || c == '\r'

def skipWs : List Char → List Char
  | [] => []
  | c :: cs => if isWsChar c then skipWs cs else c :: cs

def hexVal (c : Char) : Option Nat :=
  if '0' ≤ c ∧ c ≤ '9' then some (c.toNat - 48)
  else if 'a' ≤ c ∧ c ≤ 'f' then some (c.toNat - 87)
  else if 'A' ≤ c ∧ c ≤ 'F' then some (c.toNat - 55)
  else none

def hex4 (a b c d : Char) : Option Nat :=
  match hexVal a, hexVal b, hexVal c, hexVal d with
  | some x, some y, some z, some w => some (((x * 16 + y) * 16 + z) * 16 + w)
  | _, _, _, _ => none

/-- Body of a JSON string literal, after the opening quote; returns the
decoded characters and the input remaining after the closing quote. -/
def parseStrBody : List Char → Option (List Char × List Char)
  | [] => none
  | c :: cs =>
    if c = '"' then some ([], cs)
    else if c = '\\' then
      match cs with
      | [] => none
      | 'u' :: a :: b :: c2 :: d :: cs3 =>
        match hex4 a b c2 d with
        | some n =>
          match parseStrBody cs3 with
          | some (acc, r) => some (Char.ofNat n :: acc, r)
          | none => none
        | none => none
      | e :: cs2 =>
        let decoded : Option Char :=
          if e = '"' then some '"'
          else if e = '\\' then some '\\'
          else if e = '/' then some '/'
          else if e = 'n' then some '\n'
          else if e = 't' then some '\t'
          else if e = 'r' then some '\r'
          else if e = 'b' then some (Char.ofNat 8)
          else if e = 'f' then some (Char.ofNat 12)
          else none
        match decoded with
        | some dch =>
          match parseStrBody cs2 with
          | some (acc, r) => some (dch :: acc, r)
          | none => none
        | none => none
    else if c.toNat < 32 then none
    else
      match parseStrBody cs with
      | some (acc, r) => some (c :: acc, r)
      | none => none

def takeDigits : List Char → List Char × List Char
  | [] => ([], [])
  | c :: cs =>
    if c.isDigit then
      match takeDigits cs with
      | (d, r) => (c :: d, r)
    else ([], c :: cs)

def digitsToNat (ds : List Char) : Nat :=
  ds.foldl (fun a c => a * 10 + (c.toNat - 48)) 0

def floatish : List Char → Bool
  | [] => false
  | c :: _ => c == '.' || c == 'e' || c == 'E'

/-- Unsigned part of a JSON number: the regex `0|[1-9][0-9]*`.  A
following `.`/`e` would start a float, which the model does not cover. -/
def numCore : List Char → Option (Nat × List Char)
  | [] => none
  | c :: cs =>
    if c = '0' then (if floatish cs then none else some (0, cs))
    else if c.isDigit then
      match takeDigits cs with
      | (ds, rest) =>
        if floatish rest then none else some (digitsToNat (c :: ds), rest)
    else none

def parseNum : List Char → Option (Json × List Char)
  | '-' :: rest =>
    (match numCore rest with
     | some (n, r) => some (.num (-(n : Int)), r)
     | none => none)
  | s =>
    match numCore s with
    | some (n, r) => some (.num (n : Int), r)
    | none => none

mutual
/-- One JSON value plus the remaining input.  Fuel-indexed so that the
recursion is structural; `loads` supplies fuel that cannot run out. -/
def parseVal : Nat → List Char → Option (Json × List Char)
  | 0, _ => none
  | f + 1, s =>
    match skipWs s with
    | [] => none
    | c :: cs =>
      if c = '"' then
        match parseStrBody cs with
        | some (acc, rest) => some (.str (String.mk acc), rest)
        | none => none
      else if c = '\x7b' then
        match skipWs cs with
        | '\x7d' :: rest => some (.obj .nil, rest)
        | s2 =>
          match parseMembers f s2 .nil with
          | some (fs, rest) => some (.obj fs, rest)
          | none => none
      else if c = '[' then
        match skipWs cs with
        | ']' :: rest => some (.arr .nil, rest)
        | s2 =>
          match parseElems f s2 with
          | some (xs, rest) => some (.arr xs, rest)
          | none => none
      else if c = 'n' then
        match cs with
        | 'u' :: 'l' :: 'l' :: rest => some (.null, rest)
        | _ => none
      else if c = 't' then
        match cs with
        | 'r' :: 'u' :: 'e' :: rest => some (.bool true, rest)
        | _ => none
      else if c = 'f' then
        match cs with
        | 'a' :: 'l' :: 's' :: 'e' :: rest => some (.bool false, rest)
        | _ => none
      else parseNum (c :: cs)
def parseElems : Nat → List Char → Option (JsonList × List Char)
  | 0, _ => none
  | f + 1, s =>
    match parseVal f s with
    | some (v, rest) =>
      (match skipWs rest with
       | ',' :: r2 =>
         (match parseElems f r2 with
          | some (vs, r3) => some (.cons v vs, r3)
          | none => none)
       | ']' :: r2 => some (.cons v .nil, r2)
       | _ => none)
    | none => none
def parseMembers : Nat → List Char → JsonFields → Option (JsonFields × List Char)
  | 0, _, _ => none
  | f + 1, s, acc =>
    match skipWs s with
    | '"' :: cs =>
      (match parseStrBody cs with
       | some (k, rest) =>
         (match skipWs rest with
          | ':' :: r2 =>
            (match parseVal f r2 with
             | some (v, r3) =>
               let acc2 := acc.setKey (String.mk k) v
               (match skipWs r3 with
                | ',' :: r4 => parseMembers f r4 acc2
                | '\x7d' :: r4 => some (acc2, r4)
                | _ => none)
             | none => none)
          | _ => none)
       | none => none)
    | _ => none
end

/-- `json.loads`: parse one value, allow only trailing whitespace. -/
def loads (s : String) : Option Json :=
  match parseVal (2 * s.length + 8) s.data with
  | some (j, rest) => if skipWs rest = [] then some j else none
  | none => none

/-- Decidable equality for `Except`, for concrete evaluation of results
that model a raised exception. -/
instance exceptDecEq {ε α : Type} [DecidableEq ε] [DecidableEq α] :
    DecidableEq (Except ε α) := fun a b =>
  match a, b with
  | .ok x, .ok y =>
    if h : x = y then .isTrue (by rw [h]) else .isFalse (by simp [h])
  | .error x, .error y =>
    if h : x = y then .isTrue (by rw [h]) else .isFalse (by simp [h])
  | .ok _, .error _ => .isFalse (by simp)
  | .error _, .ok _ => .isFalse (by simp)

/-! ## Configuration, network oracle and HTTP helpers -/

/-- The module-level configuration: `CF_ENDPOINTS`, `BACKEND_BASE`,
`SHARED_SECRET`, `PROJECT_ID` (each an env override with a hard-coded
default). -/
structure Config where
  calendar : String
  gmail : String
  drive : String
  decision : String
  data_pipeline : String
  backendBase : String
  sharedSecret : String
  projectId : String
  deriving DecidableEq

/-- The hard-coded defaults of `agent.py`. -/
def defaultConfig : Config :=
  { calendar := "https://asia-northeast1-smartmeet-470807.cloudfunctions.net/calendarTool"
    gmail := "https://asia-northeast1-smartmeet-470807.cloudfunctions.net/gmailTool"
    drive := "https://asia-northeast1-smartmeet-470807.cloudfunctions.net/driveTool"
    decision := "https://asia-northeast1-smartmeet-470807.cloudfunctions.net/decisionTool"
    data_pipeline := "https://asia-northeast1-smartmeet-470807.cloudfunctions.net/dataPipeline"
    backendBase := "https://smartmeet-backend-184930122798.asia-northeast1.run.app"
    sharedSecret := ""
    projectId := "smartmeet-470807" }

/-- `_headers(trace_id)`: the shared-secret header is added only when a
secret is configured (non-empty, i.e. truthy). -/
def _headers (cfg : Config) (trace_id : String) : List (String × String) :=
  [("Content-Type", "application/json"),
   ("X-Trace-Id", trace_id),
   ("X-Project", cfg.projectId)] ++
  (if cfg.sharedSecret ≠ "" then [("X-Shared-Secret", cfg.sharedSecret)] else [])

/-- One outbound HTTPS POST as issued by `_post_json`. -/
structure Call where
  url : String
  payload : Json
  headers : List (String × String)
  deriving DecidableEq

/-- Outcome of one outbound POST, as seen inside `_post_json`:
a response body (decoded text), an `HTTPError`, or a `URLError`. -/
inductive NetResp where
  | body (text : String)
  | httpError (code : Int) (reason : String)
  | urlError (msg : String)
  deriving DecidableEq

/-- The network oracle.  Within one `query` invocation no two identical
calls occur, so a deterministic oracle loses no behaviour. -/
abbrev Net := Call → NetResp

/-- The value `_post_json` produces from one network outcome
(lines 81-90 of `agent.py`): parse the body as JSON, else wrap it;
convert `HTTPError`/`URLError` into inline failure mappings. -/
def postResult (net : Net) (c : Call) : Json :=
  match net c with
  | .body text =>
    (match loads text with
     | some j => j
     | none => .obj (.ofList [("success", .bool true), ("text", .str text)]))
  | .httpError code reason =>
    .obj (.ofList [("success", .bool false), ("status", .num code), ("error", .str reason)])
  | .urlError msg =>
    .obj (.ofList [("success", .bool false), ("error", .str msg)])

/-- `_post_json(url, payload, trace_id)`: performs exactly one POST and
never raises; returns the response value and the call it made.  The
`timeout` parameter has no observable effect beyond the `urlError`
outcome and is dropped. -/
def _post_json (cfg : Config) (net : Net) (url : String) (payload : Json)
    (trace_id : String) : Json × List Call :=
  let c : Call := ⟨url, payload, _headers cfg trace_id⟩
  (postResult net c, [c])

/-- `_ok(r)`: `bool(r) and r.get("success", True) is not False`.
On a truthy value that is not a mapping, `r.get` raises
`AttributeError` (modelled as `.error`); `is not False` compares with
the boolean singleton only. -/
def _ok (r : Json) : Except String Bool :=
  if pyTruthy r then
    match r with
    | .obj fs => .ok (!(fs.getD "success" (.bool true) == .bool false))
    | _ => .error "AttributeError"
  else .ok false

/-! ## Response-shaping helpers -/

/-- `_safe_slice(obj, limit)`: serialize; if over the limit, re-parse
the truncated serialization; any parse failure falls back to the
original value (the bare `except` branch).  The source's default
`limit` is `6000`; both call sites use it. -/
def _safe_slice (obj : Json) (limit : Nat) : Json :=
  let text := dumps obj
  if text.length > limit then
    match loads (String.mk (text.data.take limit)) with
    | some j => j
    | none => obj
  else obj

/-- `_safe_str(x)` applied to a string: `str(x)[:2000]`. -/
def _safe_str (x : String) : String :=
  String.mk (x.data.take 2000)

/-- The two timestamps `_iso_now()` and `_iso_in_days(7)` that the
heuristic reads from the process clock. -/
structure Clock where
  isoNow : String
  isoIn7 : String
  deriving DecidableEq

/-! ## Next-action heuristic -/

/-- Python `str.lower` (adequate for the ASCII strings compared here). -/
def lowerStr (s : String) : String :=
  String.mk (s.data.map Char.toLower)

/-- The follow-up pair returned on high urgency. -/
def calendarAction (clk : Clock) : String × Json :=
  ("calendar.get_events",
   .obj (.ofList [("timeMin", .str clk.isoNow), ("timeMax", .str clk.isoIn7),
                  ("maxResults", .num 50)]))

/-- The fallback follow-up pair. -/
def gmailAction : String × Json :=
  ("gmail.search_emails",
   .obj (.ofList [("query", .str "meeting"), ("maxResults", .num 20)]))

/-- Line 220-221 of `agent.py`:
`result = decision_resp.get("result") or decision_resp` followed by
`(result or {})`.  `none` models the `AttributeError` path (a
non-mapping argument), which `_suggest_next_action` catches. -/
def suggestBase : Json → Option Json
  | .obj fs =>
    let r0 := fs.getD "result" .null
    let result := if pyTruthy r0 then r0 else .obj fs
    some (if pyTruthy result then result else .obj .nil)
  | _ => none

/-- The two-way branch on the extracted urgency value (lines 222-228). -/
def urgencyBranch (clk : Clock) : Json → String × Json
  | .str s =>
    if lowerStr s = "high" ∨ lowerStr s = "urgent" then calendarAction clk
    else gmailAction
  | _ => gmailAction

/-- `_suggest_next_action(decision_resp)`: the whole body is inside
`try`, and any extraction error (a truthy non-mapping where `.get` is
needed) yields `None`. -/
def _suggest_next_action (clk : Clock) (decision_resp : Json) :
    Option (String × Json) :=
  match suggestBase decision_resp with
  | some (.obj bs) => some (urgencyBranch clk (bs.getD "urgencyLevel" (.str "")))
  | some _ => none
  | none => none

/-! ## Dispatcher -/

/-- `task.split(".", 1)[1]`: everything after the first dot (only
evaluated when a dot is known to be present). -/
def afterDot : List Char → List Char
  | [] => []
  | c :: cs => if c = '.' then cs else afterDot cs

def taskAction (task : String) : String :=
  String.mk (afterDot task.data)

def startsWithL : List Char → List Char → Bool
  | [], _ => true
  | _ :: _, [] => false
  | p :: ps, c :: cs => p == c && startsWithL ps cs

/-- Python `s.startswith(p)`. -/
def pyStartswith (s p : String) : Bool :=
  startsWithL p.data s.data

/-- The seven task forms `_execute_task` recognizes, in source order. -/
def recognizedTask (task : String) : Bool :=
  pyStartswith task "calendar." || pyStartswith task "gmail." ||
  pyStartswith task "drive." || pyStartswith task "decision." ||
  pyStartswith task "data_pipeline." ||
  task == "backend.minutes" || task == "backend.mindmap"

/-- The `{action: ..., parameters: ...}` body of a namespaced dispatch. -/
def actionBody (action : String) (params : Json) : Json :=
  .obj (.ofList [("action", .str action), ("parameters", params)])

/-- `SmartMeetCustomAgent._execute_task`: route by string prefix and
POST once, or raise `ValueError(f"Unknown task: {task}")` before any
network I/O. -/
def _execute_task (cfg : Config) (net : Net) (task : String) (params : Json)
    (trace_id : String) : Except String Json × List Call :=
  if pyStartswith task "calendar." then
    let (r, cs) := _post_json cfg net cfg.calendar (actionBody (taskAction task) params) trace_id
    (.ok r, cs)
  else if pyStartswith task "gmail." then
    let (r, cs) := _post_json cfg net cfg.gmail (actionBody (taskAction task) params) trace_id
    (.ok r, cs)
  else if pyStartswith task "drive." then
    let (r, cs) := _post_json cfg net cfg.drive (actionBody (taskAction task) params) trace_id
    (.ok r, cs)
  else if pyStartswith task "decision." then
    let (r, cs) := _post_json cfg net cfg.decision (actionBody (taskAction task) params) trace_id
    (.ok r, cs)
  else if pyStartswith task "data_pipeline." then
    let (r, cs) := _post_json cfg net cfg.data_pipeline (actionBody (taskAction task) params) trace_id
    (.ok r, cs)
  else if task == "backend.minutes" then
    let (r, cs) := _post_json cfg net (cfg.backendBase ++ "/api/agent/minutes/generate") params trace_id
    (.ok r, cs)
  else if task == "backend.mindmap" then
    let (r, cs) := _post_json cfg net (cfg.backendBase ++ "/api/speech/generate-mindmap") params trace_id
    (.ok r, cs)
  else (.error ("Unknown task: " ++ task), [])

/-! ## Orchestrator -/

/-- A `{task, params, result}` tool-call record. -/
def toolCallRec (task : String) (params result : Json) : Json :=
  .obj (.ofList [("task", .str task), ("params", params), ("result", result)])

/-- A `{task, message}` error record. -/
def errRec (task msg : String) : Json :=
  .obj (.ofList [("task", .str task), ("message", .str msg)])

/-- The six-key response envelope, in the key order of all three
`return` statements of `query`. -/
def mkEnvelope (traceId input routedTask : String) (toolCalls : List Json)
    (output : Json) (errors : List Json) : Json :=
  .obj (.ofList
    [("traceId", .str traceId), ("input", .str input),
     ("routedTask", .str routedTask), ("toolCalls", .arr (.ofList toolCalls)),
     ("output", output), ("errors", .arr (.ofList errors))])

/-- The payload of the automatic decision-analysis call (line 155). -/
def analysisPayload (input : String) : Json :=
  .obj (.ofList [("action", .str "analyze_situation"),
                 ("parameters", .obj (.ofList [("context", .str input)]))])

/-- The output mapping of the decision-failed early return (line 166). -/
def noteOutput : Json :=
  .obj (.ofList [("note", .str "decision analysis failed")])

/-- The decision-analysis call a given invocation issues. -/
def decisionCall (cfg : Config) (trace_id input : String) : Call :=
  ⟨cfg.decision, analysisPayload input, _headers cfg trace_id⟩

/-- The decision-analysis response value of a given invocation. -/
def decisionRespOf (cfg : Config) (net : Net) (trace_id input : String) : Json :=
  (_post_json cfg net cfg.decision (analysisPayload input) trace_id).fst

/-- `params = parameters or {}` (line 133). -/
def paramsOf : Option Json → Json
  | some p => if pyTruthy p then p else .obj .nil
  | none => .obj .nil

/-- `routed_task = task or ""` (line 136). -/
def routedTaskOf : Option String → String
  | some t => t
  | none => ""

/-- Lines 154-187 of `query`: the automatic decision-analysis path,
entered with the errors (and calls) accumulated by a failed explicit
dispatch.  A `.error` result models a Python exception escaping
`query` (possible only from the bare `_ok` call on line 159). -/
def autoPath (cfg : Config) (net : Net) (clk : Clock) (trace_id input routed_task : String)
    (errors0 : List Json) (calls0 : List Call) : Except String Json × List Call :=
  let (decision_resp, cs1) := _post_json cfg net cfg.decision (analysisPayload input) trace_id
  let tool1 := toolCallRec "decision.analyze_situation"
    (.obj (.ofList [("context", .str (_safe_str input))])) (_safe_slice decision_resp 6000)
  match _ok decision_resp with
  | .error e => (.error e, calls0 ++ cs1)
  | .ok false =>
    (.ok (mkEnvelope trace_id input routed_task [tool1] noteOutput
        (errors0 ++ [errRec "decision.analyze_situation" (pyRepr decision_resp)])),
     calls0 ++ cs1)
  | .ok true =>
    match _suggest_next_action clk decision_resp with
    | some (action_task, action_params) =>
      (match _execute_task cfg net action_task action_params trace_id with
       | (.ok action_result, cs2) =>
         (.ok (mkEnvelope trace_id input
             (if routed_task ≠ "" then routed_task else action_task)
             [tool1, toolCallRec action_task action_params (_safe_slice action_result 6000)]
             decision_resp errors0),
          calls0 ++ cs1 ++ cs2)
       | (.error e2, cs2) =>
         (.ok (mkEnvelope trace_id input
             (if routed_task ≠ "" then routed_task else action_task)
             [tool1] decision_resp (errors0 ++ [errRec action_task e2])),
          calls0 ++ cs1 ++ cs2))
    | none =>
      (.ok (mkEnvelope trace_id input "" [tool1] decision_resp errors0),
       calls0 ++ cs1)

/-- `SmartMeetCustomAgent.query`.  `trace_id` stands for the fresh
`uuid.uuid4().hex[:16]`; `clk` stands for the process clock read by the
heuristic.  Returns the envelope (or an escaped exception) together
with every outbound call attempted, in order. -/
def query (cfg : Config) (net : Net) (clk : Clock) (trace_id : String)
    (input : String) (task : Option String) (parameters : Option Json) :
    Except String Json × List Call :=
  let params := paramsOf parameters
  let routed_task := routedTaskOf task
  if routed_task ≠ "" then
    match _execute_task cfg net routed_task params trace_id with
    | (.ok result, cs) =>
      (.ok (mkEnvelope trace_id input routed_task
          [toolCallRec routed_task params (_safe_slice result 6000)] result []),
       cs)
    | (.error e, cs) =>
      autoPath cfg net clk trace_id input routed_task [errRec routed_task e] cs
  else
    autoPath cfg net clk trace_id input routed_task [] []

/-! ## Observations on envelopes -/

/-- Key lookup on a JSON mapping (`env["output"]` etc.). -/
def getField : Json → String → Option Json
  | .obj fs, k => fs.get? k
  | _, _ => none

/-- A returned value is a mapping with exactly the six envelope keys,
`toolCalls` and `errors` being arrays. -/
def sixKeyEnvelopeOk : Except String Json → Bool
  | .ok (.obj fs) =>
    fs.keys == ["traceId", "input", "routedTask", "toolCalls", "output", "errors"] &&
    (match fs.get? "toolCalls" with | some (.arr _) => true | _ => false) &&
    (match fs.get? "errors" with | some (.arr _) => true | _ => false)
  | _ => false

/-- Length of the `toolCalls` array of an envelope. -/
def toolCallCount (env : Json) : Nat :=
  match getField env "toolCalls" with
  | some (.arr l) => l.length
  | _ => 0

/-- Whether the `errors` array of an envelope is non-empty. -/
def errorsNonempty (env : Json) : Bool :=
  match getField env "errors" with
  | some (.arr (.cons _ _)) => true
  | _ => false

/-- The tool-call record of the decision-analysis call (line 157). -/
def decisionToolRec (cfg : Config) (net : Net) (trace_id input : String) : Json :=
  toolCallRec "decision.analyze_situation"
    (.obj (.ofList [("context", .str (_safe_str input))]))
    (_safe_slice (decisionRespOf cfg net trace_id input) 6000)

/-- `CF_ENDPOINTS[ns]`. -/
def nsUrl (cfg : Config) : String → String
  | "calendar" => cfg.calendar
  | "gmail" => cfg.gmail
  | "drive" => cfg.drive
  | "decision" => cfg.decision
  | "data_pipeline" => cfg.data_pipeline
  | _ => ""

/-! ## Concrete instances used by witnesses and counterexamples -/

/-- A fixed clock reading. -/
def sampleClock : Clock := ⟨"2025-01-01T00:00:00Z", "2025-01-08T00:00:00Z"⟩

/-- Every endpoint answers with the JSON object `{"x": 1}`. -/
def netAllObj : Net := fun _ => .body "\x7b\"x\": 1\x7d"

/-- Every endpoint answers with the JSON number `5`
(truthy, not a mapping). -/
def netNum5 : Net := fun _ => .body "5"

/-- Every endpoint answers with `{"success": false}`. -/
def netSuccessFalse : Net := fun _ => .body "\x7b\"success\": false\x7d"

/-! ## Derived facts about the embedding -/

theorem ofList_length (l : List Json) : (JsonList.ofList l).length = l.length := by
  induction l with
  | nil => rfl
  | cons x xs ih => simp [JsonList.ofList, JsonList.length, ih]

theorem startsWithL_self (l m : List Char) : startsWithL l (l ++ m) = true := by
  induction l with
  | nil => rfl
  | cons c cs ih => simp [startsWithL, ih]

theorem startsWithL_ff (p q t : List Char)
    (h : startsWithL (p.take q.length) q = false) : startsWithL p (q ++ t) = false := by
  induction q generalizing p with
  | nil => simp [startsWithL] at h
  | cons c cs ih =>
    cases p with
    | nil => simp [startsWithL] at h
    | cons a as =>
      simp only [List.take, startsWithL, List.cons_append] at h ⊢
      cases hac : (a == c) with
      | false => simp
      | true => simp_all [ih]

theorem afterDot_append (pre rest : List Char) (h : ∀ c ∈ pre, ¬ c = '.') :
    afterDot (pre ++ '.' :: rest) = rest := by
  induction pre with
  | nil => simp [afterDot]
  | cons c cs ih =>
    have hc : ¬ c = '.' := h c (by simp)
    simp only [List.cons_append, afterDot, if_neg hc]
    exact ih (fun x hx => h x (by simp [hx]))

/-- `_execute_task` on an unrecognized task raises before any call. -/
theorem exec_unknown_eq (cfg : Config) (net : Net) (task : String) (params : Json)
    (tid : String) (h : recognizedTask task = false) :
    _execute_task cfg net task params tid =
      (.error ("Unknown task: " ++ task), []) := by
  simp only [recognizedTask, Bool.or_eq_false_iff] at h
  obtain ⟨⟨⟨⟨⟨⟨h1, h2⟩, h3⟩, h4⟩, h5⟩, h6⟩, h7⟩ := h
  simp [_execute_task, h1, h2, h3, h4, h5, h6, h7]

/-- `_execute_task` either makes exactly one call and returns its
result, or raises the unknown-task error having made none. -/
theorem exec_cases (cfg : Config) (net : Net) (task : String) (params : Json)
    (tid : String) :
    (∃ c, _execute_task cfg net task params tid = (.ok (postResult net c), [c]))
    ∨ (recognizedTask task = false ∧
       _execute_task cfg net task params tid =
         (.error ("Unknown task: " ++ task), [])) := by
  by_cases h1 : pyStartswith task "calendar." = true
  · exact Or.inl ⟨_, by unfold _execute_task _post_json; rw [if_pos h1]⟩
  by_cases h2 : pyStartswith task "gmail." = true
  · exact Or.inl ⟨_, by unfold _execute_task _post_json; rw [if_neg h1, if_pos h2]⟩
  by_cases h3 : pyStartswith task "drive." = true
  · exact Or.inl ⟨_, by
      unfold _execute_task _post_json; rw [if_neg h1, if_neg h2, if_pos h3]⟩
  by_cases h4 : pyStartswith task "decision." = true
  · exact Or.inl ⟨_, by
      unfold _execute_task _post_json; rw [if_neg h1, if_neg h2, if_neg h3, if_pos h4]⟩
  by_cases h5 : pyStartswith task "data_pipeline." = true
  · exact Or.inl ⟨_, by
      unfold _execute_task _post_json
      rw [if_neg h1, if_neg h2, if_neg h3, if_neg h4, if_pos h5]⟩
  by_cases h6 : (task == "backend.minutes") = true
  · exact Or.inl ⟨_, by
      unfold _execute_task _post_json
      rw [if_neg h1, if_neg h2, if_neg h3, if_neg h4, if_neg h5, if_pos h6]⟩
  by_cases h7 : (task == "backend.mindmap") = true
  · exact Or.inl ⟨_, by
      unfold _execute_task _post_json
      rw [if_neg h1, if_neg h2, if_neg h3, if_neg h4, if_neg h5, if_neg h6, if_pos h7]⟩
  right
  rw [Bool.not_eq_true] at h1 h2 h3 h4 h5 h6 h7
  have hrec : recognizedTask task = false := by
    simp [recognizedTask, h1, h2, h3, h4, h5, h6, h7]
  exact ⟨hrec, exec_unknown_eq cfg net task params tid hrec⟩

/-- The two follow-up tasks the heuristic can emit always dispatch. -/
theorem exec_cal_events (cfg : Config) (net : Net) (p : Json) (tid : String) :
    _execute_task cfg net "calendar.get_events" p tid =
      (.ok (postResult net ⟨cfg.calendar, actionBody "get_events" p, _headers cfg tid⟩),
       [⟨cfg.calendar, actionBody "get_events" p, _headers cfg tid⟩]) := rfl

theorem exec_gmail_search (cfg : Config) (net : Net) (p : Json) (tid : String) :
    _execute_task cfg net "gmail.search_emails" p tid =
      (.ok (postResult net ⟨cfg.gmail, actionBody "search_emails" p, _headers cfg tid⟩),
       [⟨cfg.gmail, actionBody "search_emails" p, _headers cfg tid⟩]) := rfl

theorem urgencyBranch_cases (clk : Clock) (u : Json) :
    urgencyBranch clk u = calendarAction clk ∨ urgencyBranch clk u = gmailAction := by
  cases u with
  | str s =>
    by_cases h : lowerStr s = "high" ∨ lowerStr s = "urgent"
    · left; simp [urgencyBranch, h]
    · right; simp [urgencyBranch, h]
  | null => exact Or.inr rfl
  | bool b => exact Or.inr rfl
  | num n => exact Or.inr rfl
  | arr xs => exact Or.inr rfl
  | obj fs => exact Or.inr rfl

theorem suggest_cases (clk : Clock) (d : Json) (a : String × Json)
    (h : _suggest_next_action clk d = some a) :
    a = calendarAction clk ∨ a = gmailAction := by
  unfold _suggest_next_action at h
  cases hb : suggestBase d with
  | none => rw [hb] at h; simp at h
  | some b =>
    rw [hb] at h
    cases b with
    | obj bs =>
      simp only [Option.some.injEq] at h
      rw [← h]
      exact urgencyBranch_cases clk _
    | null => simp at h
    | bool x => simp at h
    | num x => simp at h
    | str x => simp at h
    | arr x => simp at h

/-- `query` without a truthy explicit task goes to the automatic path. -/
theorem query_auto_eq (cfg : Config) (net : Net) (clk : Clock) (tid input : String)
    (task : Option String) (parameters : Option Json) (h : routedTaskOf task = "") :
    query cfg net clk tid input task parameters =
      autoPath cfg net clk tid input (routedTaskOf task) [] [] := by
  unfold query
  rw [if_neg (by simp [h])]

/-- `query` with a truthy explicit task whose dispatch succeeds. -/
theorem query_exec_ok_eq (cfg : Config) (net : Net) (clk : Clock) (tid input : String)
    (task : Option String) (parameters : Option Json) (r : Json) (cs : List Call)
    (h : routedTaskOf task ≠ "")
    (he : _execute_task cfg net (routedTaskOf task) (paramsOf parameters) tid = (.ok r, cs)) :
    query cfg net clk tid input task parameters =
      (.ok (mkEnvelope tid input (routedTaskOf task)
          [toolCallRec (routedTaskOf task) (paramsOf parameters) (_safe_slice r 6000)] r []),
       cs) := by
  unfold query
  rw [if_pos h, he]

/-- `query` with a truthy explicit task whose dispatch raises. -/
theorem query_exec_err_eq (cfg : Config) (net : Net) (clk : Clock) (tid input : String)
    (task : Option String) (parameters : Option Json) (e : String) (cs : List Call)
    (h : routedTaskOf task ≠ "")
    (he : _execute_task cfg net (routedTaskOf task) (paramsOf parameters) tid = (.error e, cs)) :
    query cfg net clk tid input task parameters =
      autoPath cfg net clk tid input (routedTaskOf task)
        [errRec (routedTaskOf task) e] cs := by
  unfold query
  rw [if_pos h, he]

/-- Splitting `autoPath` on the `_ok` classification and the heuristic:
the raising case. -/
theorem autoPath_raise (cfg : Config) (net : Net) (clk : Clock) (tid input rt : String)
    (errs0 : List Json) (calls0 : List Call) (e : String)
    (h : _ok (decisionRespOf cfg net tid input) = .error e) :
    autoPath cfg net clk tid input rt errs0 calls0 =
      (.error e, calls0 ++ [decisionCall cfg tid input]) := by
  have hd : postResult net ⟨cfg.decision, analysisPayload input, _headers cfg tid⟩ =
      decisionRespOf cfg net tid input := rfl
  unfold autoPath
  simp only [_post_json]
  rw [hd]
  simp only [h]
  rfl

/-- The decision call is classified as failed: early return. -/
theorem autoPath_dfail (cfg : Config) (net : Net) (clk : Clock) (tid input rt : String)
    (errs0 : List Json) (calls0 : List Call)
    (h : _ok (decisionRespOf cfg net tid input) = .ok false) :
    autoPath cfg net clk tid input rt errs0 calls0 =
      (.ok (mkEnvelope tid input rt [decisionToolRec cfg net tid input] noteOutput
          (errs0 ++ [errRec "decision.analyze_situation"
            (pyRepr (decisionRespOf cfg net tid input))])),
       calls0 ++ [decisionCall cfg tid input]) := by
  have hd : postResult net ⟨cfg.decision, analysisPayload input, _headers cfg tid⟩ =
      decisionRespOf cfg net tid input := rfl
  unfold autoPath
  simp only [_post_json]
  rw [hd]
  simp only [h]
  rfl

/-- The decision call succeeded but the heuristic yields nothing. -/
theorem autoPath_nosuggest (cfg : Config) (net : Net) (clk : Clock) (tid input rt : String)
    (errs0 : List Json) (calls0 : List Call)
    (h : _ok (decisionRespOf cfg net tid input) = .ok true)
    (hs : _suggest_next_action clk (decisionRespOf cfg net tid input) = none) :
    autoPath cfg net clk tid input rt errs0 calls0 =
      (.ok (mkEnvelope tid input "" [decisionToolRec cfg net tid input]
          (decisionRespOf cfg net tid input) errs0),
       calls0 ++ [decisionCall cfg tid input]) := by
  have hd : postResult net ⟨cfg.decision, analysisPayload input, _headers cfg tid⟩ =
      decisionRespOf cfg net tid input := rfl
  unfold autoPath
  simp only [_post_json]
  rw [hd]
  simp only [h, hs]
  rfl

/-- The decision call succeeded and the follow-up dispatch succeeded. -/
theorem autoPath_suggest_ok (cfg : Config) (net : Net) (clk : Clock)
    (tid input rt : String) (errs0 : List Json) (calls0 : List Call)
    (at_ : String) (ap r2 : Json) (cs2 : List Call)
    (h : _ok (decisionRespOf cfg net tid input) = .ok true)
    (hs : _suggest_next_action clk (decisionRespOf cfg net tid input) = some (at_, ap))
    (he : _execute_task cfg net at_ ap tid = (.ok r2, cs2)) :
    autoPath cfg net clk tid input rt errs0 calls0 =
      (.ok (mkEnvelope tid input (if rt ≠ "" then rt else at_)
          [decisionToolRec cfg net tid input,
           toolCallRec at_ ap (_safe_slice r2 6000)]
          (decisionRespOf cfg net tid input) errs0),
       calls0 ++ [decisionCall cfg tid input] ++ cs2) := by
  have hd : postResult net ⟨cfg.decision, analysisPayload input, _headers cfg tid⟩ =
      decisionRespOf cfg net tid input := rfl
  unfold autoPath
  simp only [_post_json]
  rw [hd]
  simp only [h, hs, he]
  rfl

/-- The decision call succeeded but the follow-up dispatch raised
(impossible for the two tasks the heuristic emits, but part of the
source's `try`). -/
theorem autoPath_suggest_err (cfg : Config) (net : Net) (clk : Clock)
    (tid input rt : String) (errs0 : List Json) (calls0 : List Call)
    (at_ : String) (ap : Json) (e2 : String) (cs2 : List Call)
    (h : _ok (decisionRespOf cfg net tid input) = .ok true)
    (hs : _suggest_next_action clk (decisionRespOf cfg net tid input) = some (at_, ap))
    (he : _execute_task cfg net at_ ap tid = (.error e2, cs2)) :
    autoPath cfg net clk tid input rt errs0 calls0 =
      (.ok (mkEnvelope tid input (if rt ≠ "" then rt else at_)
          [decisionToolRec cfg net tid input]
          (decisionRespOf cfg net tid input) (errs0 ++ [errRec at_ e2])),
       calls0 ++ [decisionCall cfg tid input] ++ cs2) := by
  have hd : postResult net ⟨cfg.decision, analysisPayload input, _headers cfg tid⟩ =
      decisionRespOf cfg net tid input := rfl
  unfold autoPath
  simp only [_post_json]
  rw [hd]
  simp only [h, hs, he]
  rfl

def Json.isStr : Json → Bool
  | .str _ => true
  | _ => false

/-- First record of the `errors` array of an envelope. -/
def errorsHead (env : Json) : Option Json :=
  match getField env "errors" with
  | some (.arr l) => l.head?
  | _ => none

/-- The error records accumulated by the explicit-task step when the
automatic path is reached with an unrecognized task. -/
def explicitErrs : Option String → List Json
  | some t => if t ≠ "" then [errRec t ("Unknown task: " ++ t)] else []
  | none => []

theorem env_of_eq {x env : Json} {l : List Call}
    {p : Except String Json × List Call}
    (h1 : p = (Except.ok x, l)) (h2 : p.fst = Except.ok env) : env = x := by
  rw [h1] at h2
  exact (Except.ok.inj h2).symm

theorem calls_of_eq {x : Except String Json} {l : List Call}
    {p : Except String Json × List Call}
    (h1 : p = (x, l)) : p.snd = l := by rw [h1]

theorem sixKey_mk (a b c : String) (tc : List Json) (o : Json) (e : List Json) :
    sixKeyEnvelopeOk (.ok (mkEnvelope a b c tc o e)) = true := rfl

theorem getField_mk_output (a b c : String) (tc : List Json) (o : Json) (e : List Json) :
    getField (mkEnvelope a b c tc o e) "output" = some o := rfl

theorem getField_mk_routed (a b c : String) (tc : List Json) (o : Json) (e : List Json) :
    getField (mkEnvelope a b c tc o e) "routedTask" = some (.str c) := rfl

theorem toolCallCount_mk (a b c : String) (tc : List Json) (o : Json) (e : List Json) :
    toolCallCount (mkEnvelope a b c tc o e) = tc.length := by
  show (JsonList.ofList tc).length = tc.length
  exact ofList_length tc

theorem errorsNonempty_mk (a b c : String) (tc : List Json) (o : Json) (e : List Json) :
    errorsNonempty (mkEnvelope a b c tc o e) = true ↔ e ≠ [] := by
  cases e with
  | nil => simp [errorsNonempty, mkEnvelope, getField, JsonFields.ofList, JsonFields.get?, JsonList.ofList]
  | cons x xs => simp [errorsNonempty, mkEnvelope, getField, JsonFields.ofList, JsonFields.get?, JsonList.ofList]

theorem errorsHead_mk (a b c : String) (tc : List Json) (o : Json) (e : List Json) :
    errorsHead (mkEnvelope a b c tc o e) = (JsonList.ofList e).head? := rfl

/-- When the hypothesis of the amended claims holds (the decision
response is falsy or a mapping), `_ok` cannot raise. -/
theorem ok_no_raise (d : Json) (h : pyTruthy d = true → d.isObj = true) :
    ∃ b, _ok d = .ok b := by
  by_cases hp : pyTruthy d = true
  · have hobj := h hp
    cases d with
    | obj fs =>
      exact ⟨!(fs.getD "success" (.bool true) == .bool false), by
        unfold _ok; rw [if_pos hp]⟩
    | null => simp [Json.isObj] at hobj
    | bool b => simp [Json.isObj] at hobj
    | num n => simp [Json.isObj] at hobj
    | str s => simp [Json.isObj] at hobj
    | arr xs => simp [Json.isObj] at hobj
  · exact ⟨false, by unfold _ok; rw [if_neg hp]⟩

/-- Inversion: a raising dispatch is exactly an unrecognized task. -/
theorem exec_err_inv (cfg : Config) (net : Net) (t : String) (p : Json)
    (tid e : String) (cs : List Call)
    (h : _execute_task cfg net t p tid = (.error e, cs)) :
    recognizedTask t = false ∧ e = "Unknown task: " ++ t ∧ cs = [] := by
  rcases exec_cases cfg net t p tid with ⟨c, hc⟩ | ⟨hrec, hu⟩
  · rw [hc] at h
    exact absurd h (by simp)
  · have hh := hu.symm.trans h
    have h1 : Except.error ("Unknown task: " ++ t) = (Except.error e : Except String Json) :=
      congrArg Prod.fst hh
    have h2 : ([] : List Call) = cs := congrArg Prod.snd hh
    exact ⟨hrec, (Except.error.inj h1).symm, h2.symm⟩

/-- Every branch of the automatic path returns a six-key envelope once
`_ok` is known not to raise. -/
theorem autoPath_shape (cfg : Config) (net : Net) (clk : Clock)
    (tid input rt : String) (errs0 : List Json) (calls0 : List Call) (b : Bool)
    (hb : _ok (decisionRespOf cfg net tid input) = .ok b) :
    sixKeyEnvelopeOk (autoPath cfg net clk tid input rt errs0 calls0).fst = true := by
  cases b with
  | false =>
    rw [autoPath_dfail cfg net clk tid input rt errs0 calls0 hb]
    exact sixKey_mk _ _ _ _ _ _
  | true =>
    cases hs : _suggest_next_action clk (decisionRespOf cfg net tid input) with
    | none =>
      rw [autoPath_nosuggest cfg net clk tid input rt errs0 calls0 hb hs]
      exact sixKey_mk _ _ _ _ _ _
    | some a =>
      rcases suggest_cases clk _ a hs with rfl | rfl
      · rw [autoPath_suggest_ok cfg net clk tid input rt errs0 calls0 _ _ _ _ hb hs
          (exec_cal_events cfg net _ tid)]
        exact sixKey_mk _ _ _ _ _ _
      · rw [autoPath_suggest_ok cfg net clk tid input rt errs0 calls0 _ _ _ _ hb hs
          (exec_gmail_search cfg net _ tid)]
        exact sixKey_mk _ _ _ _ _ _

/-- In every envelope the automatic path returns after a successful
decision classification, `output` is the decision response itself. -/
theorem autoPath_output_ok (cfg : Config) (net : Net) (clk : Clock)
    (tid input rt : String) (errs0 : List Json) (calls0 : List Call)
    (hok : _ok (decisionRespOf cfg net tid input) = .ok true) :
    ∀ env, (autoPath cfg net clk tid input rt errs0 calls0).fst = .ok env →
      getField env "output" = some (decisionRespOf cfg net tid input) := by
  intro env henv
  cases hs : _suggest_next_action clk (decisionRespOf cfg net tid input) with
  | none =>
    have he := env_of_eq (autoPath_nosuggest cfg net clk tid input rt errs0 calls0 hok hs) henv
    rw [he]
    exact getField_mk_output _ _ _ _ _ _
  | some a =>
    rcases suggest_cases clk _ a hs with rfl | rfl
    · have he := env_of_eq (autoPath_suggest_ok cfg net clk tid input rt errs0 calls0 _ _ _ _
        hok hs (exec_cal_events cfg net _ tid)) henv
      rw [he]
      exact getField_mk_output _ _ _ _ _ _
    · have he := env_of_eq (autoPath_suggest_ok cfg net clk tid input rt errs0 calls0 _ _ _ _
        hok hs (exec_gmail_search cfg net _ tid)) henv
      rw [he]
      exact getField_mk_output _ _ _ _ _ _

/-- Counting for the automatic path (entered with no prior calls): the
envelope records exactly the calls attempted, at most two of them, and
its errors can be non-empty only from a failed explicit dispatch or a
failed decision classification. -/
theorem autoPath_count (cfg : Config) (net : Net) (clk : Clock)
    (tid input rt : String) (errs0 : List Json) (b : Bool)
    (hb : _ok (decisionRespOf cfg net tid input) = .ok b) :
    ∀ env, (autoPath cfg net clk tid input rt errs0 []).fst = .ok env →
      toolCallCount env = (autoPath cfg net clk tid input rt errs0 []).snd.length
      ∧ (autoPath cfg net clk tid input rt errs0 []).snd.length ≤ 2
      ∧ (errorsNonempty env = true →
         errs0 ≠ [] ∨ _ok (decisionRespOf cfg net tid input) = .ok false) := by
  intro env henv
  cases b with
  | false =>
    have hp := autoPath_dfail cfg net clk tid input rt errs0 [] hb
    have he := env_of_eq hp henv
    have hc := calls_of_eq hp
    rw [he, hc]
    refine ⟨?_, by simp, fun _ => Or.inr hb⟩
    · rw [toolCallCount_mk]; simp
  | true =>
    cases hs : _suggest_next_action clk (decisionRespOf cfg net tid input) with
    | none =>
      have hp := autoPath_nosuggest cfg net clk tid input rt errs0 [] hb hs
      have he := env_of_eq hp henv
      have hc := calls_of_eq hp
      rw [he, hc]
      refine ⟨?_, by simp, fun hne => Or.inl ((errorsNonempty_mk _ _ _ _ _ _).mp hne)⟩
      · rw [toolCallCount_mk]; simp
    | some a =>
      rcases suggest_cases clk _ a hs with rfl | rfl
      · have hp := autoPath_suggest_ok cfg net clk tid input rt errs0 [] _ _ _ _ hb hs
          (exec_cal_events cfg net _ tid)
        have he := env_of_eq hp henv
        have hc := calls_of_eq hp
        rw [he, hc]
        refine ⟨?_, by simp, fun hne => Or.inl ((errorsNonempty_mk _ _ _ _ _ _).mp hne)⟩
        · rw [toolCallCount_mk]; simp
      · have hp := autoPath_suggest_ok cfg net clk tid input rt errs0 [] _ _ _ _ hb hs
          (exec_gmail_search cfg net _ tid)
        have he := env_of_eq hp henv
        have hc := calls_of_eq hp
        rw [he, hc]
        refine ⟨?_, by simp, fun hne => Or.inl ((errorsNonempty_mk _ _ _ _ _ _).mp hne)⟩
        · rw [toolCallCount_mk]; simp

/-! ## Claims -/

/-- C3: for every task string matching none of the seven recognized
forms (the five namespace prefixes and the two backend shortcut
literals), dispatch fails with an error carrying the offending task
string, and it does so before any outbound network call (the list of
attempted calls is empty). -/
theorem C3_unknown_task_aborts (cfg : Config) (net : Net) (task : String)
    (params : Json) (tid : String) (h : recognizedTask task = false) :
    _execute_task cfg net task params tid =
      (.error ("Unknown task: " ++ task), []) :=
  exec_unknown_eq cfg net task params tid h

theorem C3_witness :
    recognizedTask "unknown.foo" = false ∧
    _execute_task defaultConfig netAllObj "unknown.foo" (.obj .nil) "tid" =
      (.error "Unknown task: unknown.foo", []) :=
  ⟨by decide,
   C3_unknown_task_aborts defaultConfig netAllObj "unknown.foo" (.obj .nil) "tid"
     (by decide)⟩

/-- C4: for every task `<ns>.<action>` with `ns` among the five
namespaces, dispatch performs exactly one POST to that namespace's
configured endpoint with body `{action, parameters}`; the two backend
shortcuts POST the parameters verbatim to their fixed backend paths.
The witness instantiates the concrete example
`dispatch("calendar.get_events", {a: 1})`. -/
theorem C4_dispatch_shape (cfg : Config) (net : Net) (tid action : String)
    (params : Json) :
    (∀ ns, ns ∈ (["calendar", "gmail", "drive", "decision", "data_pipeline"] : List String) →
       _execute_task cfg net (ns ++ "." ++ action) params tid =
         (.ok (postResult net ⟨nsUrl cfg ns, actionBody action params, _headers cfg tid⟩),
          [⟨nsUrl cfg ns, actionBody action params, _headers cfg tid⟩]))
    ∧ _execute_task cfg net "backend.minutes" params tid =
        (.ok (postResult net
            ⟨cfg.backendBase ++ "/api/agent/minutes/generate", params, _headers cfg tid⟩),
         [⟨cfg.backendBase ++ "/api/agent/minutes/generate", params, _headers cfg tid⟩])
    ∧ _execute_task cfg net "backend.mindmap" params tid =
        (.ok (postResult net
            ⟨cfg.backendBase ++ "/api/speech/generate-mindmap", params, _headers cfg tid⟩),
         [⟨cfg.backendBase ++ "/api/speech/generate-mindmap", params, _headers cfg tid⟩]) := by
  refine ⟨?_, ?_, ?_⟩
  · intro ns hns
    simp only [List.mem_cons, List.not_mem_nil, or_false] at hns
    rcases hns with rfl | rfl | rfl | rfl | rfl
    · have e1 : ("calendar" ++ "." ++ action) = "calendar." ++ action := rfl
      rw [e1]
      have hsw : pyStartswith ("calendar." ++ action) "calendar." = true := by
        show startsWithL "calendar.".data ("calendar." ++ action).data = true
        rw [show ("calendar." ++ action).data = "calendar.".data ++ action.data from rfl]
        exact startsWithL_self _ _
      have hta : taskAction ("calendar." ++ action) = action := by
        show String.mk (afterDot ("calendar." ++ action).data) = action
        rw [show ("calendar." ++ action).data = "calendar".data ++ '.' :: action.data from rfl]
        rw [afterDot_append _ _ (by decide)]
      unfold _execute_task _post_json
      rw [if_pos hsw, hta]
      rfl
    · have e1 : ("gmail" ++ "." ++ action) = "gmail." ++ action := rfl
      rw [e1]
      have hn1 : pyStartswith ("gmail." ++ action) "calendar." = false := by
        show startsWithL "calendar.".data ("gmail." ++ action).data = false
        rw [show ("gmail." ++ action).data = "gmail.".data ++ action.data from rfl]
        exact startsWithL_ff _ _ _ (by decide)
      have hsw : pyStartswith ("gmail." ++ action) "gmail." = true := by
        show startsWithL "gmail.".data ("gmail." ++ action).data = true
        rw [show ("gmail." ++ action).data = "gmail.".data ++ action.data from rfl]
        exact startsWithL_self _ _
      have hta : taskAction ("gmail." ++ action) = action := by
        show String.mk (afterDot ("gmail." ++ action).data) = action
        rw [show ("gmail." ++ action).data = "gmail".data ++ '.' :: action.data from rfl]
        rw [afterDot_append _ _ (by decide)]
      unfold _execute_task _post_json
      rw [if_neg (by simp [hn1]), if_pos hsw, hta]
      rfl
    · have e1 : ("drive" ++ "." ++ action) = "drive." ++ action := rfl
      rw [e1]
      have hn1 : pyStartswith ("drive." ++ action) "calendar." = false := by
        show startsWithL "calendar.".data ("drive." ++ action).data = false
        rw [show ("drive." ++ action).data = "drive.".data ++ action.data from rfl]
        exact startsWithL_ff _ _ _ (by decide)
      have hn2 : pyStartswith ("drive." ++ action) "gmail." = false := by
        show startsWithL "gmail.".data ("drive." ++ action).data = false
        rw [show ("drive." ++ action).data = "drive.".data ++ action.data from rfl]
        exact startsWithL_ff _ _ _ (by decide)
      have hsw : pyStartswith ("drive." ++ action) "drive." = true := by
        show startsWithL "drive.".data ("drive." ++ action).data = true
        rw [show ("drive." ++ action).data = "drive.".data ++ action.data from rfl]
        exact startsWithL_self _ _
      have hta : taskAction ("drive." ++ action) = action := by
        show String.mk (afterDot ("drive." ++ action).data) = action
        rw [show ("drive." ++ action).data = "drive".data ++ '.' :: action.data from rfl]
        rw [afterDot_append _ _ (by decide)]
      unfold _execute_task _post_json
      rw [if_neg (by simp [hn1]), if_neg (by simp [hn2]), if_pos hsw, hta]
      rfl
    · have e1 : ("decision" ++ "." ++ action) = "decision." ++ action := rfl
      rw [e1]
      have hn1 : pyStartswith ("decision." ++ action) "calendar." = false := by
        show startsWithL "calendar.".data ("decision." ++ action).data = false
        rw [show ("decision." ++ action).data = "decision.".data ++ action.data from rfl]
        exact startsWithL_ff _ _ _ (by decide)
      have hn2 : pyStartswith ("decision." ++ action) "gmail." = false := by
        show startsWithL "gmail.".data ("decision." ++ action).data = false
        rw [show ("decision." ++ action).data = "decision.".data ++ action.data from rfl]
        exact startsWithL_ff _ _ _ (by decide)
      have hn3 : pyStartswith ("decision." ++ action) "drive." = false := by
        show startsWithL "drive.".data ("decision." ++ action).data = false
        rw [show ("decision." ++ action).data = "decision.".data ++ action.data from rfl]
        exact startsWithL_ff _ _ _ (by decide)
      have hsw : pyStartswith ("decision." ++ action) "decision." = true := by
        show startsWithL "decision.".data ("decision." ++ action).data = true
        rw [show ("decision." ++ action).data = "decision.".data ++ action.data from rfl]
        exact startsWithL_self _ _
      have hta : taskAction ("decision." ++ action) = action := by
        show String.mk (afterDot ("decision." ++ action).data) = action
        rw [show ("decision." ++ action).data = "decision".data ++ '.' :: action.data from rfl]
        rw [afterDot_append _ _ (by decide)]
      unfold _execute_task _post_json
      rw [if_neg (by simp [hn1]), if_neg (by simp [hn2]), if_neg (by simp [hn3]),
        if_pos hsw, hta]
      rfl
    · have e1 : ("data_pipeline" ++ "." ++ action) = "data_pipeline." ++ action := rfl
      rw [e1]
      have hn1 : pyStartswith ("data_pipeline." ++ action) "calendar." = false := by
        show startsWithL "calendar.".data ("data_pipeline." ++ action).data = false
        rw [show ("data_pipeline." ++ action).data = "data_pipeline.".data ++ action.data from rfl]
        exact startsWithL_ff _ _ _ (by decide)
      have hn2 : pyStartswith ("data_pipeline." ++ action) "gmail." = false := by
        show startsWithL "gmail.".data ("data_pipeline." ++ action).data = false
        rw [show ("data_pipeline." ++ action).data = "data_pipeline.".data ++ action.data from rfl]
        exact startsWithL_ff _ _ _ (by decide)
      have hn3 : pyStartswith ("data_pipeline." ++ action) "drive." = false := by
        show startsWithL "drive.".data ("data_pipeline." ++ action).data = false
        rw [show ("data_pipeline." ++ action).data = "data_pipeline.".data ++ action.data from rfl]
        exact startsWithL_ff _ _ _ (by decide)
      have hn4 : pyStartswith ("data_pipeline." ++ action) "decision." = false := by
        show startsWithL "decision.".data ("data_pipeline." ++ action).data = false
        rw [show ("data_pipeline." ++ action).data = "data_pipeline.".data ++ action.data from rfl]
        exact startsWithL_ff _ _ _ (by decide)
      have hsw : pyStartswith ("data_pipeline." ++ action) "data_pipeline." = true := by
        show startsWithL "data_pipeline.".data ("data_pipeline." ++ action).data = true
        rw [show ("data_pipeline." ++ action).data = "data_pipeline.".data ++ action.data from rfl]
        exact startsWithL_self _ _
      have hta : taskAction ("data_pipeline." ++ action) = action := by
        show String.mk (afterDot ("data_pipeline." ++ action).data) = action
        rw [show ("data_pipeline." ++ action).data = "data_pipeline".data ++ '.' :: action.data from rfl]
        rw [afterDot_append _ _ (by decide)]
      unfold _execute_task _post_json
      rw [if_neg (by simp [hn1]), if_neg (by simp [hn2]), if_neg (by simp [hn3]),
        if_neg (by simp [hn4]), if_pos hsw, hta]
      rfl
  · rfl
  · rfl

theorem C4_witness :
    ("calendar" : String) ∈ (["calendar", "gmail", "drive", "decision", "data_pipeline"] : List String)
    ∧ _execute_task defaultConfig netAllObj "calendar.get_events"
        (.obj (.cons "a" (.num 1) .nil)) "tid" =
      (.ok (postResult netAllObj ⟨defaultConfig.calendar,
          actionBody "get_events" (.obj (.cons "a" (.num 1) .nil)),
          _headers defaultConfig "tid"⟩),
       [⟨defaultConfig.calendar,
         actionBody "get_events" (.obj (.cons "a" (.num 1) .nil)),
         _headers defaultConfig "tid"⟩]) :=
  ⟨by decide,
   (C4_dispatch_shape defaultConfig netAllObj "tid" "get_events"
       (.obj (.cons "a" (.num 1) .nil))).1 "calendar" (by decide)⟩

/-- C6 (amended): when urgency extraction succeeds (the base the
heuristic reads from is a mapping), a string urgency that lowercases to
`high`/`urgent` yields the calendar pair and every other extracted
value yields the gmail pair; but when extraction fails (the value in
play is truthy and not a mapping) the heuristic returns no pair at all
— the claim's "every other decision result returns the gmail pair" is
false there. -/
theorem C6_urgency_heuristic (clk : Clock) (d : Json) :
    (∀ bs, suggestBase d = some (.obj bs) →
       (∀ s, bs.getD "urgencyLevel" (.str "") = .str s →
          ((lowerStr s = "high" ∨ lowerStr s = "urgent") →
             _suggest_next_action clk d = some (calendarAction clk)) ∧
          (¬(lowerStr s = "high" ∨ lowerStr s = "urgent") →
             _suggest_next_action clk d = some gmailAction)) ∧
       ((bs.getD "urgencyLevel" (.str "")).isStr = false →
          _suggest_next_action clk d = some gmailAction))
    ∧ ((∀ bs, suggestBase d ≠ some (.obj bs)) →
       _suggest_next_action clk d = none) := by
  constructor
  · intro bs hb
    constructor
    · intro s hs
      constructor
      · intro hc
        unfold _suggest_next_action
        rw [hb]
        show some (urgencyBranch clk (bs.getD "urgencyLevel" (.str ""))) = _
        rw [hs]
        simp [urgencyBranch, hc]
      · intro hc
        unfold _suggest_next_action
        rw [hb]
        show some (urgencyBranch clk (bs.getD "urgencyLevel" (.str ""))) = _
        rw [hs]
        simp [urgencyBranch, hc]
    · intro hstr
      unfold _suggest_next_action
      rw [hb]
      show some (urgencyBranch clk (bs.getD "urgencyLevel" (.str ""))) = _
      cases hu : bs.getD "urgencyLevel" (.str "") with
      | str s => rw [hu] at hstr; simp [Json.isStr] at hstr
      | null => rfl
      | bool b => rfl
      | num n => rfl
      | arr xs => rfl
      | obj fs => rfl
  · intro hno
    unfold _suggest_next_action
    cases hb : suggestBase d with
    | none => rfl
    | some b =>
      cases b with
      | obj bs => exact absurd hb (hno bs)
      | null => rfl
      | bool x => rfl
      | num x => rfl
      | str x => rfl
      | arr x => rfl

/-- C6 counterexample: for the decision result `{"result": "x"}` the
extracted urgency is neither high nor urgent, so the claim requires the
gmail pair; the code's extraction raises (a truthy non-mapping under
`result`), the `except` returns `None`, and neither pair is produced. -/
theorem C6_counterexample :
    _suggest_next_action sampleClock (.obj (.cons "result" (.str "x") .nil)) ≠
      some gmailAction
    ∧ _suggest_next_action sampleClock (.obj (.cons "result" (.str "x") .nil)) ≠
        some (calendarAction sampleClock)
    ∧ _suggest_next_action sampleClock (.obj (.cons "result" (.str "x") .nil)) = none := by
  refine ⟨by decide, by decide, by decide⟩

theorem C6_witness :
    _suggest_next_action sampleClock (.obj (.cons "urgencyLevel" (.str "Urgent") .nil)) =
      some (calendarAction sampleClock) :=
  (((C6_urgency_heuristic sampleClock
      (.obj (.cons "urgencyLevel" (.str "Urgent") .nil))).1
    (.cons "urgencyLevel" (.str "Urgent") .nil) (by decide)).1
    "Urgent" (by decide)).1 (by decide)

/-- C7 (amended): the heuristic reads `urgencyLevel` from the value
under `result` exactly when that value is truthy (and then only
produces a pair when that value is a mapping); it falls back to the
top-level mapping exactly when the `result` value is absent **or
falsy** — not merely when the key is absent, as the claim states. -/
theorem C7_result_extraction (clk : Clock) (fs : JsonFields) :
    (∀ rs, fs.getD "result" .null = .obj rs → pyTruthy (.obj rs) = true →
       _suggest_next_action clk (.obj fs) =
         some (urgencyBranch clk (rs.getD "urgencyLevel" (.str ""))))
    ∧ (pyTruthy (fs.getD "result" .null) = false →
       _suggest_next_action clk (.obj fs) =
         some (urgencyBranch clk (fs.getD "urgencyLevel" (.str ""))))
    ∧ (∀ r0, fs.getD "result" .null = r0 → pyTruthy r0 = true → r0.isObj = false →
       _suggest_next_action clk (.obj fs) = none) := by
  refine ⟨?_, ?_, ?_⟩
  · intro rs hr ht
    simp [_suggest_next_action, suggestBase, hr, ht]
  · intro hf
    cases fs with
    | nil => rfl
    | cons k v fs' =>
      have ht : pyTruthy (Json.obj (JsonFields.cons k v fs')) = true := rfl
      simp [_suggest_next_action, suggestBase, hf, ht]
  · intro r0 hr ht hno
    cases r0 with
    | obj rs => simp [Json.isObj] at hno
    | null => simp [pyTruthy] at ht
    | bool b => simp [_suggest_next_action, suggestBase, hr, ht]
    | num n => simp [_suggest_next_action, suggestBase, hr, ht]
    | str s => simp [_suggest_next_action, suggestBase, hr, ht]
    | arr xs => simp [_suggest_next_action, suggestBase, hr, ht]

/-- C7 counterexample: in `{"result": {}, "urgencyLevel": "high"}` the
`result` key exists, so per the claim the urgency would be read from
the (empty) nested mapping and the gmail pair returned; the code's
`or`-fallback reads the top-level `urgencyLevel` instead and returns
the calendar pair. -/
theorem C7_counterexample :
    (JsonFields.get?
       (.cons "result" (.obj .nil) (.cons "urgencyLevel" (.str "high") .nil))
       "result").isSome = true
    ∧ _suggest_next_action sampleClock
        (.obj (.cons "result" (.obj .nil) (.cons "urgencyLevel" (.str "high") .nil))) =
        some (calendarAction sampleClock)
    ∧ calendarAction sampleClock ≠ gmailAction := by
  refine ⟨by decide, by decide, by decide⟩

theorem C7_witness :
    _suggest_next_action sampleClock (.obj (.cons "urgencyLevel" (.str "low") .nil)) =
      some (urgencyBranch sampleClock (.str "low"))
    ∧ urgencyBranch sampleClock (.str "low") = gmailAction :=
  ⟨(C7_result_extraction sampleClock (.cons "urgencyLevel" (.str "low") .nil)).2.1
     (by decide),
   by decide⟩

/-- C8 (amended): when the serialization fits the limit the stored
result is the value unchanged; when it exceeds the limit the stored
result is the re-parse of the truncated serialization if that parse
succeeds, and otherwise the **untruncated** value itself (so the stored
record may exceed the limit, contrary to the claim); and in the
explicit-task pass-through the envelope's `output` is the raw dispatch
result while the tool-call record stores `_safe_slice` of it. -/
theorem C8_truncation (obj : Json) (limit : Nat) :
    ((dumps obj).length ≤ limit → _safe_slice obj limit = obj)
    ∧ ((dumps obj).length > limit →
       (∀ j, loads (String.mk ((dumps obj).data.take limit)) = some j →
          _safe_slice obj limit = j)
       ∧ (loads (String.mk ((dumps obj).data.take limit)) = none →
          _safe_slice obj limit = obj))
    ∧ (∀ cfg : Config, ∀ net : Net, ∀ clk : Clock, ∀ tid input t : String,
       ∀ parameters : Option Json, ∀ r : Json, ∀ cs : List Call, t ≠ "" →
       _execute_task cfg net t (paramsOf parameters) tid = (.ok r, cs) →
       query cfg net clk tid input (some t) parameters =
         (.ok (mkEnvelope tid input t
             [toolCallRec t (paramsOf parameters) (_safe_slice r 6000)] r []), cs)) := by
  refine ⟨?_, ?_, ?_⟩
  · intro h
    simp only [_safe_slice]
    rw [if_neg (Nat.not_lt.mpr h)]
  · intro h
    constructor
    · intro j hj
      simp only [_safe_slice]
      rw [if_pos h, hj]
    · intro hn
      simp only [_safe_slice]
      rw [if_pos h, hn]
  · intro cfg net clk tid input t parameters r cs ht he
    exact query_exec_ok_eq cfg net clk tid input (some t) parameters r cs ht he

/-- C8 counterexample: the string value `"aaaa"` serializes to 6
characters; with the size limit 5 the truncated serialization is not
valid JSON, the `except` branch stores the full value, and the stored
record's serialization still exceeds the limit — refuting "a valid
JSON value whose serialization is no longer than the limit". -/
theorem C8_counterexample :
    (dumps (Json.str "aaaa")).length > 5
    ∧ _safe_slice (Json.str "aaaa") 5 = Json.str "aaaa"
    ∧ ¬((dumps (_safe_slice (Json.str "aaaa") 5)).length ≤ 5) := by
  refine ⟨by decide, by decide, by decide⟩

theorem C8_witness :
    _safe_slice (Json.num 123456) 5 = Json.num 12345
    ∧ _safe_slice (Json.num 7) 5 = Json.num 7 :=
  ⟨((C8_truncation (Json.num 123456) 5).2.1 (by decide)).1 (Json.num 12345) (by decide),
   (C8_truncation (Json.num 7) 5).1 (by decide)⟩


/-- C1 (amended): whenever the decision-analysis response is falsy or a
mapping (the only case line 159 can handle without raising), `query`
returns — never raises — a mapping with exactly the six keys
`traceId, input, routedTask, toolCalls, output, errors`, with
`toolCalls` and `errors` arrays; this holds for every input, task and
parameters, even when every call fails.  Without that proviso the
original claim is false (see the counterexample). -/
theorem C1_envelope_total (cfg : Config) (net : Net) (clk : Clock)
    (tid input : String) (task : Option String) (parameters : Option Json)
    (h : pyTruthy (decisionRespOf cfg net tid input) = true →
         (decisionRespOf cfg net tid input).isObj = true) :
    sixKeyEnvelopeOk (query cfg net clk tid input task parameters).fst = true := by
  obtain ⟨b, hb⟩ := ok_no_raise _ h
  by_cases hrt : routedTaskOf task = ""
  · rw [query_auto_eq cfg net clk tid input task parameters hrt]
    exact autoPath_shape cfg net clk tid input _ [] [] b hb
  · rcases hex : _execute_task cfg net (routedTaskOf task) (paramsOf parameters) tid with ⟨res, cs⟩
    cases res with
    | ok r =>
      rw [query_exec_ok_eq cfg net clk tid input task parameters r cs hrt hex]
      exact sixKey_mk _ _ _ _ _ _
    | error e =>
      rw [query_exec_err_eq cfg net clk tid input task parameters e cs hrt hex]
      exact autoPath_shape cfg net clk tid input _ _ _ b hb

/-- C1 counterexample: with the decision endpoint answering the JSON
number `5` — truthy and not a mapping — the bare `_ok` call on line
159 evaluates `r.get` on an `int` and the `AttributeError` escapes
`query`, so `query` does not always return an envelope. -/
theorem C1_counterexample :
    (query defaultConfig netNum5 sampleClock "tid" "" none none).fst =
      .error "AttributeError" := by decide

theorem C1_witness :
    sixKeyEnvelopeOk (query defaultConfig netAllObj sampleClock "tid" "x" none none).fst
      = true :=
  C1_envelope_total defaultConfig netAllObj sampleClock "tid" "x" none none (by decide)

/-- C2 (amended): in every envelope `query` returns, the `toolCalls`
length equals the number of outbound calls attempted (at most 2); and
`errors` is non-empty only when the explicit task was truthy and
unrecognized (a routing failure that makes **no** call) or the
decision-analysis response was classified as failed.  The original
claim ties non-empty `errors` to a failed *call*, which the routing
failure refutes (see the counterexample). -/
theorem C2_toolcalls_invariant (cfg : Config) (net : Net) (clk : Clock)
    (tid input : String) (task : Option String) (parameters : Option Json) (env : Json)
    (h : (query cfg net clk tid input task parameters).fst = .ok env) :
    toolCallCount env = (query cfg net clk tid input task parameters).snd.length
    ∧ (query cfg net clk tid input task parameters).snd.length ≤ 2
    ∧ (errorsNonempty env = true →
       (∃ t, task = some t ∧ t ≠ "" ∧ recognizedTask t = false)
       ∨ _ok (decisionRespOf cfg net tid input) = .ok false) := by
  by_cases hrt : routedTaskOf task = ""
  · have hq := query_auto_eq cfg net clk tid input task parameters hrt
    rw [hq] at h ⊢
    rcases hok : _ok (decisionRespOf cfg net tid input) with e2 | b
    · rw [autoPath_raise cfg net clk tid input _ [] [] _ hok] at h
      simp at h
    · obtain ⟨h1, h2, h3⟩ := autoPath_count cfg net clk tid input _ [] b hok env h
      refine ⟨h1, h2, fun hne => ?_⟩
      rcases h3 hne with hx | hdf
      · exact absurd rfl hx
      · exact Or.inr (hok.symm.trans hdf)
  · rcases hex : _execute_task cfg net (routedTaskOf task) (paramsOf parameters) tid with ⟨res, cs⟩
    cases res with
    | ok r =>
      have hq := query_exec_ok_eq cfg net clk tid input task parameters r cs hrt hex
      have he := env_of_eq hq h
      rw [hq]
      obtain ⟨c, hcs⟩ : ∃ c, cs = [c] := by
        rcases exec_cases cfg net (routedTaskOf task) (paramsOf parameters) tid with
          ⟨c, hc⟩ | ⟨_, hc⟩
        · rw [hex] at hc
          exact ⟨c, congrArg Prod.snd hc⟩
        · rw [hex] at hc
          exact absurd (congrArg Prod.fst hc) (by simp)
      subst he hcs
      refine ⟨by simp [toolCallCount_mk], by simp, fun hne => ?_⟩
      exact absurd ((errorsNonempty_mk _ _ _ _ _ _).mp hne) (by simp)
    | error e =>
      obtain ⟨hrec, heq, hcs⟩ := exec_err_inv cfg net _ _ _ _ _ hex
      subst heq hcs
      have hq := query_exec_err_eq cfg net clk tid input task parameters _ _ hrt hex
      rw [hq] at h ⊢
      rcases hok : _ok (decisionRespOf cfg net tid input) with e2 | b
      · rw [autoPath_raise cfg net clk tid input _ _ [] _ hok] at h
        simp at h
      · obtain ⟨h1, h2, h3⟩ := autoPath_count cfg net clk tid input _ _ b hok env h
        refine ⟨h1, h2, fun hne => ?_⟩
        rcases h3 hne with _ | hdf
        · left
          cases task with
          | none => exact absurd rfl hrt
          | some t => exact ⟨t, rfl, hrt, hrec⟩
        · exact Or.inr (hok.symm.trans hdf)

/-- C2 counterexample: `query` with the unknown explicit task
`unknown.foo` against endpoints that always answer the success mapping
`{"x": 1}`: both attempted calls are classified successful, yet
`errors` is non-empty — the error record comes from the routing
failure, which attempted no call. -/
theorem C2_counterexample :
    errorsNonempty
        ((query defaultConfig netAllObj sampleClock "tid" "x" (some "unknown.foo")
            none).fst.toOption.getD .null) = true
    ∧ (query defaultConfig netAllObj sampleClock "tid" "x" (some "unknown.foo")
        none).snd.length = 2
    ∧ ((query defaultConfig netAllObj sampleClock "tid" "x" (some "unknown.foo")
        none).snd.all (fun c =>
          (netAllObj c == NetResp.body "\x7b\"x\": 1\x7d") &&
          (_ok (postResult netAllObj c) == Except.ok true))) = true := by
  refine ⟨by decide, by decide, by decide⟩

/-- Concrete envelope used to witness C2's hypothesis. -/
def c2WitnessEnv : Json :=
  (query defaultConfig netAllObj sampleClock "tid" "x" none none).fst.toOption.getD .null

theorem C2_witness :
    toolCallCount c2WitnessEnv =
      (query defaultConfig netAllObj sampleClock "tid" "x" none none).snd.length
    ∧ (query defaultConfig netAllObj sampleClock "tid" "x" none none).snd.length ≤ 2 :=
  ⟨(C2_toolcalls_invariant defaultConfig netAllObj sampleClock "tid" "x" none none
      c2WitnessEnv (by decide)).1,
   (C2_toolcalls_invariant defaultConfig netAllObj sampleClock "tid" "x" none none
      c2WitnessEnv (by decide)).2.1⟩

/-- C5 (amended): restricted to responses that are falsy or mappings
(the only ones line 159 survives), the decision call is classified as
failed exactly when the response is falsy or carries `success = False`;
exactly then `query` appends a `decision.analyze_situation` error
record and returns immediately with the note output and no further
calls, and when classified successful the envelope `output` is the
decision response itself.  On a truthy non-mapping response the code
raises instead of classifying, refuting the unrestricted claim. -/
theorem C5_failure_classification :
    (∀ r : Json, (pyTruthy r = true → r.isObj = true) →
       (_ok r = .ok false ↔
        (pyTruthy r = false ∨
         ∃ fs, r = .obj fs ∧ fs.getD "success" (.bool true) = .bool false)))
    ∧ (∀ cfg : Config, ∀ net : Net, ∀ clk : Clock, ∀ tid input : String,
       ∀ task : Option String, ∀ parameters : Option Json,
       (routedTaskOf task = "" ∨ recognizedTask (routedTaskOf task) = false) →
       (_ok (decisionRespOf cfg net tid input) = .ok false →
          query cfg net clk tid input task parameters =
            (.ok (mkEnvelope tid input (routedTaskOf task)
                [decisionToolRec cfg net tid input] noteOutput
                (explicitErrs task ++
                 [errRec "decision.analyze_situation"
                   (pyRepr (decisionRespOf cfg net tid input))])),
             [decisionCall cfg tid input]))
       ∧ (_ok (decisionRespOf cfg net tid input) = .ok true →
          ∀ env, (query cfg net clk tid input task parameters).fst = .ok env →
            getField env "output" = some (decisionRespOf cfg net tid input))) := by
  constructor
  · intro r hshape
    constructor
    · intro hf
      by_cases hp : pyTruthy r = true
      · have hobj := hshape hp
        cases r with
        | obj fs =>
          unfold _ok at hf
          rw [if_pos hp] at hf
          have hb := Except.ok.inj hf
          right
          refine ⟨fs, rfl, ?_⟩
          have := Bool.not_eq_true (fs.getD "success" (.bool true) == .bool false)
          rcases hx : (fs.getD "success" (.bool true) == .bool false) with _ | _
          · rw [hx] at hb; simp at hb
          · exact eq_of_beq hx
        | null => simp [Json.isObj] at hobj
        | bool b => simp [Json.isObj] at hobj
        | num n => simp [Json.isObj] at hobj
        | str s => simp [Json.isObj] at hobj
        | arr xs => simp [Json.isObj] at hobj
      · rw [Bool.not_eq_true] at hp
        exact Or.inl hp
    · intro hd
      rcases hd with hfalsy | ⟨fs, rfl, hsucc⟩
      · unfold _ok
        rw [if_neg (by simp [hfalsy])]
      · unfold _ok
        by_cases hp : pyTruthy (Json.obj fs) = true
        · rw [if_pos hp]
          simp [hsucc]
        · rw [if_neg hp]
  · intro cfg net clk tid input task parameters hreach
    constructor
    · intro hfail
      by_cases hrt : routedTaskOf task = ""
      · rw [query_auto_eq cfg net clk tid input task parameters hrt,
          autoPath_dfail cfg net clk tid input _ [] [] hfail]
        have hee : explicitErrs task = [] := by
          cases task with
          | none => rfl
          | some t => simp [explicitErrs, show t = "" from hrt]
        rw [hee]
        simp
      · have hrec : recognizedTask (routedTaskOf task) = false := hreach.resolve_left hrt
        have he := exec_unknown_eq cfg net (routedTaskOf task) (paramsOf parameters) tid hrec
        rw [query_exec_err_eq cfg net clk tid input task parameters _ _ hrt he,
          autoPath_dfail cfg net clk tid input _ _ [] hfail]
        have hee : explicitErrs task =
            [errRec (routedTaskOf task) ("Unknown task: " ++ routedTaskOf task)] := by
          cases task with
          | none => exact absurd rfl hrt
          | some t =>
            have hrt2 : ¬t = "" := hrt
            simp [explicitErrs, hrt2]
            rfl
        rw [hee]
        simp
    · intro hok env henv
      by_cases hrt : routedTaskOf task = ""
      · rw [query_auto_eq cfg net clk tid input task parameters hrt] at henv
        exact autoPath_output_ok cfg net clk tid input _ [] [] hok env henv
      · have hrec : recognizedTask (routedTaskOf task) = false := hreach.resolve_left hrt
        have he := exec_unknown_eq cfg net (routedTaskOf task) (paramsOf parameters) tid hrec
        rw [query_exec_err_eq cfg net clk tid input task parameters _ _ hrt he] at henv
        exact autoPath_output_ok cfg net clk tid input _ _ _ hok env henv

/-- C5 counterexample: the truthy non-mapping decision response `5` is
not classified by the stated predicate (not falsy, no mapping, so the
claim calls it a success and expects the call flow to continue); the
code instead raises `AttributeError` out of `query`. -/
theorem C5_counterexample :
    pyTruthy (Json.num 5) = true
    ∧ (Json.num 5).isObj = false
    ∧ _ok (Json.num 5) = .error "AttributeError"
    ∧ decisionRespOf defaultConfig netNum5 "tid" "" = Json.num 5
    ∧ (query defaultConfig netNum5 sampleClock "tid" "" none none).fst =
        .error "AttributeError" := by
  refine ⟨by decide, by decide, by decide, by decide, by decide⟩

theorem C5_witness :
    _ok (.obj (.cons "success" (.bool false) .nil)) = .ok false
    ∧ query defaultConfig netSuccessFalse sampleClock "tid" "x" none none =
      (.ok (mkEnvelope "tid" "x" ""
          [decisionToolRec defaultConfig netSuccessFalse "tid" "x"] noteOutput
          (explicitErrs none ++
           [errRec "decision.analyze_situation"
             (pyRepr (decisionRespOf defaultConfig netSuccessFalse "tid" "x"))])),
       [decisionCall defaultConfig "tid" "x"]) :=
  ⟨(C5_failure_classification.1 (.obj (.cons "success" (.bool false) .nil))
      (by decide)).mpr (Or.inr ⟨_, rfl, by decide⟩),
   (C5_failure_classification.2 defaultConfig netSuccessFalse sampleClock "tid" "x"
      none none (Or.inl rfl)).1 (by decide)⟩

/-- C9 (amended): when a truthy explicit task fails to dispatch
(unrecognized), its `{task, message}` record is the first error, the
decision-analysis call is the first outbound call and carries the same
input, the explicit task is never retried (at most one further call,
and only to the heuristic's calendar/gmail endpoints), and — provided
the decision response is classified successful — `output` is the
decision-analysis result, not any follow-up result.  When the decision
call also fails, `output` is the note mapping instead, refuting the
claim's unconditional final clause (see the counterexample). -/
theorem C9_fallthrough (cfg : Config) (net : Net) (clk : Clock)
    (tid input t : String) (parameters : Option Json)
    (h1 : t ≠ "") (h2 : recognizedTask t = false) :
    (query cfg net clk tid input (some t) parameters).snd.head? =
      some (decisionCall cfg tid input)
    ∧ (query cfg net clk tid input (some t) parameters).snd.length ≤ 2
    ∧ (∀ c ∈ (query cfg net clk tid input (some t) parameters).snd.tail,
        c.url = cfg.calendar ∨ c.url = cfg.gmail)
    ∧ (∀ env, (query cfg net clk tid input (some t) parameters).fst = .ok env →
        errorsHead env = some (errRec t ("Unknown task: " ++ t)))
    ∧ (_ok (decisionRespOf cfg net tid input) = .ok true →
       ∀ env, (query cfg net clk tid input (some t) parameters).fst = .ok env →
         getField env "output" = some (decisionRespOf cfg net tid input)) := by
  have he := exec_unknown_eq cfg net t (paramsOf parameters) tid h2
  have hq := query_exec_err_eq cfg net clk tid input (some t) parameters _ _ h1 he
  rw [hq]
  rcases hok : _ok (decisionRespOf cfg net tid input) with e2 | b
  · rw [autoPath_raise cfg net clk tid input _ _ [] _ hok]
    refine ⟨rfl, by simp, ?_, ?_, ?_⟩
    · intro c hc
      simp at hc
    · intro env henv
      simp at henv
    · intro hokT
      exact absurd hokT (by simp)
  · cases b with
    | false =>
      rw [autoPath_dfail cfg net clk tid input _ _ [] hok]
      refine ⟨rfl, by simp, ?_, ?_, ?_⟩
      · intro c hc
        simp at hc
      · intro env henv
        rw [← Except.ok.inj henv]
        rfl
      · intro hokT
        exact absurd hokT (by simp)
    | true =>
      cases hs : _suggest_next_action clk (decisionRespOf cfg net tid input) with
      | none =>
        rw [autoPath_nosuggest cfg net clk tid input _ _ [] hok hs]
        refine ⟨rfl, by simp, ?_, ?_, ?_⟩
        · intro c hc
          simp at hc
        · intro env henv
          rw [← Except.ok.inj henv]
          rfl
        · intro hokT env henv
          rw [← Except.ok.inj henv]
          exact getField_mk_output _ _ _ _ _ _
      | some a =>
        rcases suggest_cases clk _ a hs with rfl | rfl
        · rw [autoPath_suggest_ok cfg net clk tid input _ _ [] _ _ _ _ hok hs
            (exec_cal_events cfg net _ tid)]
          refine ⟨rfl, by simp, ?_, ?_, ?_⟩
          · intro c hc
            simp at hc
            subst hc
            left
            rfl
          · intro env henv
            rw [← Except.ok.inj henv]
            rfl
          · intro hokT env henv
            rw [← Except.ok.inj henv]
            exact getField_mk_output _ _ _ _ _ _
        · rw [autoPath_suggest_ok cfg net clk tid input _ _ [] _ _ _ _ hok hs
            (exec_gmail_search cfg net _ tid)]
          refine ⟨rfl, by simp, ?_, ?_, ?_⟩
          · intro c hc
            simp at hc
            subst hc
            right
            rfl
          · intro env henv
            rw [← Except.ok.inj henv]
            rfl
          · intro hokT env henv
            rw [← Except.ok.inj henv]
            exact getField_mk_output _ _ _ _ _ _

/-- C9 counterexample: explicit task `unknown.foo` fails, control falls
through, and the decision analysis itself returns `{"success": false}`
— the envelope's `output` is the note mapping, not the decision-analysis
result, so the claim's "output equals the decision-analysis result" is
false as stated. -/
theorem C9_counterexample :
    getField ((query defaultConfig netSuccessFalse sampleClock "tid" "x"
        (some "unknown.foo") none).fst.toOption.getD .null) "output" =
      some noteOutput
    ∧ decisionRespOf defaultConfig netSuccessFalse "tid" "x" =
        .obj (.cons "success" (.bool false) .nil)
    ∧ noteOutput ≠ .obj (.cons "success" (.bool false) .nil) := by
  refine ⟨by decide, by decide, by decide⟩

theorem C9_witness :
    (query defaultConfig netAllObj sampleClock "tid" "x" (some "unknown.foo")
        none).snd.head? = some (decisionCall defaultConfig "tid" "x")
    ∧ errorsHead ((query defaultConfig netAllObj sampleClock "tid" "x"
        (some "unknown.foo") none).fst.toOption.getD .null) =
      some (errRec "unknown.foo" "Unknown task: unknown.foo") :=
  ⟨(C9_fallthrough defaultConfig netAllObj sampleClock "tid" "x" "unknown.foo" none
      (by decide) (by decide)).1,
   (C9_fallthrough defaultConfig netAllObj sampleClock "tid" "x" "unknown.foo" none
      (by decide) (by decide)).2.2.2.1 _ (by decide)⟩

/-- C10: on an invocation that reaches the heuristic step (no truthy
explicit task, or its dispatch failed; decision classified successful),
`routedTask` is the empty string when the heuristic produced no pair —
even when a truthy explicit task was supplied and failed — and
otherwise the explicit task when one was supplied (truthy) else the
follow-up task name; this is line 183's
`routed_task or next_action[0] if next_action else ""`. -/
theorem C10_routedTask (cfg : Config) (net : Net) (clk : Clock)
    (tid input : String) (task : Option String) (parameters : Option Json)
    (h1 : routedTaskOf task = "" ∨ recognizedTask (routedTaskOf task) = false)
    (h2 : _ok (decisionRespOf cfg net tid input) = .ok true) :
    ∀ env, (query cfg net clk tid input task parameters).fst = .ok env →
      getField env "routedTask" = some (.str
        (match _suggest_next_action clk (decisionRespOf cfg net tid input) with
         | none => ""
         | some (name, _) =>
           if routedTaskOf task ≠ "" then routedTaskOf task else name)) := by
  intro env henv
  have hq : query cfg net clk tid input task parameters =
      autoPath cfg net clk tid input (routedTaskOf task) (explicitErrs task) [] := by
    by_cases hrt : routedTaskOf task = ""
    · rw [query_auto_eq cfg net clk tid input task parameters hrt]
      have hee : explicitErrs task = [] := by
        cases task with
        | none => rfl
        | some t => simp [explicitErrs, show t = "" from hrt]
      rw [hee]
    · have hrec := h1.resolve_left hrt
      have he := exec_unknown_eq cfg net (routedTaskOf task) (paramsOf parameters) tid hrec
      rw [query_exec_err_eq cfg net clk tid input task parameters _ _ hrt he]
      have hee : explicitErrs task =
          [errRec (routedTaskOf task) ("Unknown task: " ++ routedTaskOf task)] := by
        cases task with
        | none => exact absurd rfl hrt
        | some t =>
          have hrt2 : ¬t = "" := hrt
          simp [explicitErrs, hrt2]
          rfl
      rw [hee]
  rw [hq] at henv
  cases hs : _suggest_next_action clk (decisionRespOf cfg net tid input) with
  | none =>
    have he := env_of_eq (autoPath_nosuggest cfg net clk tid input _ _ [] h2 hs) henv
    rw [he]
    exact getField_mk_routed _ _ _ _ _ _
  | some a =>
    rcases suggest_cases clk _ a hs with rfl | rfl
    · have he := env_of_eq (autoPath_suggest_ok cfg net clk tid input _ _ [] _ _ _ _ h2 hs
        (exec_cal_events cfg net _ tid)) henv
      rw [he]
      exact getField_mk_routed _ _ _ _ _ _
    · have he := env_of_eq (autoPath_suggest_ok cfg net clk tid input _ _ [] _ _ _ _ h2 hs
        (exec_gmail_search cfg net _ tid)) henv
      rw [he]
      exact getField_mk_routed _ _ _ _ _ _

theorem C10_witness :
    getField ((query defaultConfig netAllObj sampleClock "tid" "x"
        (some "unknown.foo") none).fst.toOption.getD .null) "routedTask" =
      some (.str "unknown.foo") :=
  (C10_routedTask defaultConfig netAllObj sampleClock "tid" "x" (some "unknown.foo")
      none (Or.inr (by decide)) (by decide)
      ((query defaultConfig netAllObj sampleClock "tid" "x" (some "unknown.foo")
        none).fst.toOption.getD .null) (by decide)).trans (by decide)

end SMA
